import Mathlib

/-!
Shallow embedding of the Skill Waiting List page component
(src/pages/WaitingList.tsx) of the swampskill-dbms repository.

The component's handlers are embedded as pure functions. Each remote
call boundary (the waiting-list client API and the direct store access)
is modelled by an oracle parameter giving the outcome of that call; a
handler returns the successor component state together with the list of
toast notifications it fired and the list of remote calls it issued, in
order.
-/

/-- A waiting-list entry as held in the local cached sequence
(interface WaitingListEntry, fields used by the component). -/
structure WaitingListEntry where
  id : String
  desired_skill : String
  created_at : String
deriving DecidableEq, Repr

/-- A catalog skill item (interface SkillItem in WaitingList.tsx). -/
structure SkillItem where
  id : String
  name : String
deriving DecidableEq, Repr

/-- The signed-in user exposed by the authentication context: an id and
an optional email. -/
structure User where
  id : String
  email : Option String
deriving DecidableEq, Repr

/-- The toast variants used by the component. -/
inductive ToastVariant
  | default
  | destructive
deriving DecidableEq, Repr

/-- A toast notification: title, description, and the variant when one
is passed (the add-success toasts omit it). -/
structure Toast where
  title : String
  description : String
  variant : Option ToastVariant
deriving DecidableEq, Repr

/-- The remote calls the component can issue, with their arguments. -/
inductive RemoteCall
  | fetchWaitingListEntries
  | insertUserSkill (user_id : String) (skill_id : String) (type : String)
  | removeFromWaitingList (entryId : String)
  | addToWaitingList (email : String) (skillName : String)
      (category : Option String) (userId : String)
deriving DecidableEq, Repr

/-- The component state: the useState hooks of WaitingList, in
declaration order. -/
structure ComponentState where
  waitingSkills : List WaitingListEntry
  isLoading : Bool
  availableSkills : List SkillItem
  newSkill : String
  skillName : String
  category : String
  description : String
  notify : Bool
deriving DecidableEq, Repr

/-- Result of running a handler: the final component state, the toasts
fired and the remote calls issued, each in program order. -/
structure RunResult where
  state : ComponentState
  toasts : List Toast
  calls : List RemoteCall
deriving DecidableEq, Repr

/-- Outcome of fetchWaitingListEntries: the fetched entries, or a
rejection. -/
inductive FetchResult
  | ok (entries : List WaitingListEntry)
  | err
deriving DecidableEq, Repr

/-- Outcome of the user_skills insert: the supabase call resolves with
no error, or with an error (which the handler then throws). -/
inductive InsertResult
  | ok
  | err
deriving DecidableEq, Repr

/-- Outcome of removeFromWaitingList: resolves, or rejects. -/
inductive RemoveResult
  | ok
  | err
deriving DecidableEq, Repr

/-- Outcome of addToWaitingList: resolves with a success flag, or
rejects. -/
inductive AddResult
  | ok (success : Bool)
  | err
deriving DecidableEq, Repr

/-- Toast fired when fetchWaitingSkills catches an error. -/
def fetchErrorToast : Toast :=
  ⟨"Error", "Failed to load waiting skills", some ToastVariant.destructive⟩

/-- Toast fired on a successful teach-offer, naming the skill. -/
def teachSuccessToast (skill : String) : Toast :=
  ⟨"Success", "You\x27ve offered to teach " ++ skill, some ToastVariant.default⟩

/-- Toast fired when handleTeachSkill catches an error. -/
def teachErrorToast : Toast :=
  ⟨"Error", "Could not offer this skill. Please try again.",
    some ToastVariant.destructive⟩

/-- Toast fired on a successful add to the waiting list (no variant is
passed in the source). -/
def addSuccessToast : Toast :=
  ⟨"Success", "Skill added to waiting list", none⟩

/-- Toast fired when an add handler catches an error. -/
def addErrorToast : Toast :=
  ⟨"Error", "Failed to add skill to waiting list", some ToastVariant.destructive⟩

/-- Toast fired by handleAddSkill when no user is signed in. -/
def signInErrorToast : Toast :=
  ⟨"Error", "Please sign in to add a skill to the waiting list",
    some ToastVariant.destructive⟩

/-- Toast fired by handleAddSkill when a required field is missing. -/
def requiredFieldsToast : Toast :=
  ⟨"Error", "Please fill in all required fields", some ToastVariant.destructive⟩

/-- Character-wise lowercase, the embedding of toLowerCase(). -/
def strToLower (s : String) : String :=
  ⟨s.data.map Char.toLower⟩

/-- Removal of leading and trailing whitespace, the embedding of
trim(). -/
def strTrim (s : String) : String :=
  ⟨((s.data.dropWhile Char.isWhitespace).reverse.dropWhile Char.isWhitespace).reverse⟩

/-- The case-insensitive name match used by handleTeachSkill:
skill.name.toLowerCase() === waitingSkill.desired_skill.toLowerCase(). -/
def matchesSkill (desired : String) (skill : SkillItem) : Bool :=
  strToLower skill.name == strToLower desired

/-- First half of fetchWaitingSkills: setIsLoading(true) before the
remote fetch is awaited. -/
def fetchWaitingSkills_start (s : ComponentState) : ComponentState :=
  { s with isLoading := true }

/-- Second half of fetchWaitingSkills: on success replace waitingSkills
with the fetched data; on error toast; finally setIsLoading(false). -/
def fetchWaitingSkills_finish (res : FetchResult) (s : ComponentState) : RunResult :=
  match res with
  | FetchResult.ok data =>
      ⟨{ s with waitingSkills := data, isLoading := false }, [],
        [RemoteCall.fetchWaitingListEntries]⟩
  | FetchResult.err =>
      ⟨{ s with isLoading := false }, [fetchErrorToast],
        [RemoteCall.fetchWaitingListEntries]⟩

/-- fetchWaitingSkills, lines 36-51 of WaitingList.tsx. -/
def fetchWaitingSkills (res : FetchResult) (s : ComponentState) : RunResult :=
  fetchWaitingSkills_finish res (fetchWaitingSkills_start s)

/-- handleTeachSkill, lines 66-111 of WaitingList.tsx. Early no-op
return when no user is signed in; otherwise set the loading flag, look
up the catalog item matching desired_skill case-insensitively, insert a
user_skills row when found (throwing on insert error), remove the entry
remotely, filter it out of the local cache, and toast; any throw is
caught and toasts an error; finally the loading flag is cleared. -/
def handleTeachSkill (user : Option User) (insertRes : InsertResult)
    (removeRes : RemoveResult) (waitingSkill : WaitingListEntry)
    (s : ComponentState) : RunResult :=
  match user with
  | none => ⟨s, [], []⟩
  | some u =>
    let s1 := { s with isLoading := true }
    match s1.availableSkills.find? (matchesSkill waitingSkill.desired_skill) with
    | some skillItem =>
      match insertRes with
      | InsertResult.err =>
          ⟨{ s1 with isLoading := false }, [teachErrorToast],
            [RemoteCall.insertUserSkill u.id skillItem.id "teach"]⟩
      | InsertResult.ok =>
        match removeRes with
        | RemoveResult.err =>
            ⟨{ s1 with isLoading := false }, [teachErrorToast],
              [RemoteCall.insertUserSkill u.id skillItem.id "teach",
               RemoteCall.removeFromWaitingList waitingSkill.id]⟩
        | RemoveResult.ok =>
            ⟨{ s1 with
                waitingSkills := s1.waitingSkills.filter
                  (fun ws => ws.id != waitingSkill.id),
                isLoading := false },
              [teachSuccessToast waitingSkill.desired_skill],
              [RemoteCall.insertUserSkill u.id skillItem.id "teach",
               RemoteCall.removeFromWaitingList waitingSkill.id]⟩
    | none =>
      match removeRes with
      | RemoveResult.err =>
          ⟨{ s1 with isLoading := false }, [teachErrorToast],
            [RemoteCall.removeFromWaitingList waitingSkill.id]⟩
      | RemoveResult.ok =>
          ⟨{ s1 with
              waitingSkills := s1.waitingSkills.filter
                (fun ws => ws.id != waitingSkill.id),
              isLoading := false },
            [teachSuccessToast waitingSkill.desired_skill],
            [RemoteCall.removeFromWaitingList waitingSkill.id]⟩

/-- handleAddToWaitingList (quick-add), lines 113-139 of
WaitingList.tsx. Silent early return when no user or the trimmed
newSkill is empty; otherwise set the loading flag, call addToWaitingList
with the email (or empty string), trimmed name, no category and the user
id; on resolved success re-run fetchWaitingSkills, clear newSkill and
toast success; on resolved non-success do nothing; on rejection toast an
error; finally clear the loading flag. -/
def handleAddToWaitingList (user : Option User) (addRes : AddResult)
    (fetchRes : FetchResult) (s : ComponentState) : RunResult :=
  match user with
  | none => ⟨s, [], []⟩
  | some u =>
    if strTrim s.newSkill = "" then ⟨s, [], []⟩
    else
      let s1 := { s with isLoading := true }
      let addCall := RemoteCall.addToWaitingList (u.email.getD "")
        (strTrim s.newSkill) none u.id
      match addRes with
      | AddResult.err =>
          ⟨{ s1 with isLoading := false }, [addErrorToast], [addCall]⟩
      | AddResult.ok success =>
        if success then
          let r := fetchWaitingSkills fetchRes s1
          ⟨{ r.state with newSkill := "", isLoading := false },
            r.toasts ++ [addSuccessToast],
            addCall :: r.calls⟩
        else
          ⟨{ s1 with isLoading := false }, [], [addCall]⟩

/-- handleAddSkill (full form), lines 164-214 of WaitingList.tsx. When
no user is signed in, toast a sign-in error and return; when the
trimmed skill name is empty or no category is selected, toast a
validation error and return; otherwise set the loading flag, call
addToWaitingList with the email (or empty string), trimmed skill name,
the category and the user id; on resolved success re-run
fetchWaitingSkills, reset skillName, category and description, and toast
success; on resolved non-success do nothing; on rejection toast an
error; finally clear the loading flag. -/
def handleAddSkill (user : Option User) (addRes : AddResult)
    (fetchRes : FetchResult) (s : ComponentState) : RunResult :=
  match user with
  | none => ⟨s, [signInErrorToast], []⟩
  | some u =>
    if strTrim s.skillName = "" ∨ s.category = "" then
      ⟨s, [requiredFieldsToast], []⟩
    else
      let s1 := { s with isLoading := true }
      let addCall := RemoteCall.addToWaitingList (u.email.getD "")
        (strTrim s.skillName) (some s.category) u.id
      match addRes with
      | AddResult.err =>
          ⟨{ s1 with isLoading := false }, [addErrorToast], [addCall]⟩
      | AddResult.ok success =>
        if success then
          let r := fetchWaitingSkills fetchRes s1
          ⟨{ r.state with
              skillName := "", category := "", description := "",
              isLoading := false },
            r.toasts ++ [addSuccessToast],
            addCall :: r.calls⟩
        else
          ⟨{ s1 with isLoading := false }, [], [addCall]⟩

/-! Sample concrete values for exercising the handlers. -/

/-- A catalog item whose name matches the Pottery entry up to case. -/
def sItem : SkillItem := ⟨"s1", "pottery"⟩

/-- A waiting-list entry desiring the Pottery skill. -/
def wPottery : WaitingListEntry := ⟨"e1", "Pottery", "2024-01-01"⟩

/-- A waiting-list entry whose desired skill has no catalog match. -/
def wBasket : WaitingListEntry := ⟨"e2", "Basketry", "2024-01-02"⟩

/-- A sample signed-in user. -/
def uAlice : User := ⟨"u1", some "alice"⟩

/-- A sample component state with a populated cache, catalog and forms. -/
def sampleState : ComponentState :=
  ⟨[wPottery, wBasket], false, [sItem], "Guitar", "Piano", "Music", "", true⟩

/-- A sample component state whose full-form fields are all empty. -/
def blankFormState : ComponentState :=
  ⟨[], false, [], "", "", "", "", true⟩

/-- Claim C1: a teach-offer by a signed-in user on an entry whose
desired skill matches a catalog item (case-insensitively, via find?)
issues exactly one user_skills insert carrying the acting user id, the
matched skill id and the "teach" marker, followed by the remote removal
of the entry, and filters the entry out of the local cache by id. -/
theorem teach_match_inserts_once_then_removes (u : User) (item : SkillItem)
    (w : WaitingListEntry) (s : ComponentState)
    (hfind : s.availableSkills.find? (matchesSkill w.desired_skill) = some item) :
    (handleTeachSkill (some u) InsertResult.ok RemoveResult.ok w s).calls =
      [RemoteCall.insertUserSkill u.id item.id "teach",
       RemoteCall.removeFromWaitingList w.id] ∧
    (handleTeachSkill (some u) InsertResult.ok RemoveResult.ok w s).state.waitingSkills =
      s.waitingSkills.filter (fun ws => ws.id != w.id) := by
  simp [handleTeachSkill, hfind]

/-- Witness for C1 at a concrete state whose catalog holds a
case-insensitive match for the entry being taught. -/
theorem teach_match_inserts_once_then_removes_witness :
    (sampleState.availableSkills.find? (matchesSkill wPottery.desired_skill) =
      some sItem) ∧
    ((handleTeachSkill (some uAlice) InsertResult.ok RemoveResult.ok wPottery
        sampleState).calls =
      [RemoteCall.insertUserSkill uAlice.id sItem.id "teach",
       RemoteCall.removeFromWaitingList wPottery.id] ∧
     (handleTeachSkill (some uAlice) InsertResult.ok RemoveResult.ok wPottery
        sampleState).state.waitingSkills =
      sampleState.waitingSkills.filter (fun ws => ws.id != wPottery.id)) :=
  ⟨by decide,
   teach_match_inserts_once_then_removes uAlice sItem wPottery sampleState (by decide)⟩

/-- Claim C2: when the user_skills insert succeeds but the remote
removal rejects, the entry is not filtered out of the local cache, no
compensating call is issued after the insert and the removal attempt,
and the error toast fires. -/
theorem teach_remove_fail_keeps_entry (u : User) (item : SkillItem)
    (w : WaitingListEntry) (s : ComponentState)
    (hfind : s.availableSkills.find? (matchesSkill w.desired_skill) = some item) :
    (handleTeachSkill (some u) InsertResult.ok RemoveResult.err w s).state.waitingSkills =
      s.waitingSkills ∧
    (handleTeachSkill (some u) InsertResult.ok RemoveResult.err w s).toasts =
      [teachErrorToast] ∧
    (handleTeachSkill (some u) InsertResult.ok RemoveResult.err w s).calls =
      [RemoteCall.insertUserSkill u.id item.id "teach",
       RemoteCall.removeFromWaitingList w.id] := by
  simp [handleTeachSkill, hfind]

/-- Witness for C2 at a concrete state with a matching catalog item. -/
theorem teach_remove_fail_keeps_entry_witness :
    (sampleState.availableSkills.find? (matchesSkill wPottery.desired_skill) =
      some sItem) ∧
    ((handleTeachSkill (some uAlice) InsertResult.ok RemoveResult.err wPottery
        sampleState).state.waitingSkills = sampleState.waitingSkills ∧
     (handleTeachSkill (some uAlice) InsertResult.ok RemoveResult.err wPottery
        sampleState).toasts = [teachErrorToast] ∧
     (handleTeachSkill (some uAlice) InsertResult.ok RemoveResult.err wPottery
        sampleState).calls =
      [RemoteCall.insertUserSkill uAlice.id sItem.id "teach",
       RemoteCall.removeFromWaitingList wPottery.id]) :=
  ⟨by decide,
   teach_remove_fail_keeps_entry uAlice sItem wPottery sampleState (by decide)⟩

/-- Claim C4: a teach-offer by a signed-in user on an entry with no
case-insensitive catalog match issues no user_skills insert, still
issues the remote removal, and (the removal succeeding) filters the
entry out of the local cache by id. -/
theorem teach_nomatch_removes_without_insert (u : User)
    (insertRes : InsertResult) (w : WaitingListEntry) (s : ComponentState)
    (hfind : s.availableSkills.find? (matchesSkill w.desired_skill) = none) :
    (handleTeachSkill (some u) insertRes RemoveResult.ok w s).calls =
      [RemoteCall.removeFromWaitingList w.id] ∧
    (handleTeachSkill (some u) insertRes RemoveResult.ok w s).state.waitingSkills =
      s.waitingSkills.filter (fun ws => ws.id != w.id) := by
  simp [handleTeachSkill, hfind]

/-- Witness for C4 at a concrete state whose catalog has no match for
the Basketry entry. -/
theorem teach_nomatch_removes_without_insert_witness :
    (sampleState.availableSkills.find? (matchesSkill wBasket.desired_skill) =
      none) ∧
    ((handleTeachSkill (some uAlice) InsertResult.ok RemoveResult.ok wBasket
        sampleState).calls = [RemoteCall.removeFromWaitingList wBasket.id] ∧
     (handleTeachSkill (some uAlice) InsertResult.ok RemoveResult.ok wBasket
        sampleState).state.waitingSkills =
      sampleState.waitingSkills.filter (fun ws => ws.id != wBasket.id)) :=
  ⟨by decide,
   teach_nomatch_removes_without_insert uAlice InsertResult.ok wBasket
     sampleState (by decide)⟩

/-- Claim C5: when the user_skills insert rejects, the teach-offer
aborts: the error toast fires, no removal call is issued (the single
issued call is the insert), and the local cache is unchanged. -/
theorem teach_insert_fail_aborts (u : User) (item : SkillItem)
    (removeRes : RemoveResult) (w : WaitingListEntry) (s : ComponentState)
    (hfind : s.availableSkills.find? (matchesSkill w.desired_skill) = some item) :
    (handleTeachSkill (some u) InsertResult.err removeRes w s).calls =
      [RemoteCall.insertUserSkill u.id item.id "teach"] ∧
    (handleTeachSkill (some u) InsertResult.err removeRes w s).toasts =
      [teachErrorToast] ∧
    (handleTeachSkill (some u) InsertResult.err removeRes w s).state.waitingSkills =
      s.waitingSkills := by
  simp [handleTeachSkill, hfind]

/-- Witness for C5 at a concrete state with a matching catalog item. -/
theorem teach_insert_fail_aborts_witness :
    (sampleState.availableSkills.find? (matchesSkill wPottery.desired_skill) =
      some sItem) ∧
    ((handleTeachSkill (some uAlice) InsertResult.err RemoveResult.ok wPottery
        sampleState).calls = [RemoteCall.insertUserSkill uAlice.id sItem.id "teach"] ∧
     (handleTeachSkill (some uAlice) InsertResult.err RemoveResult.ok wPottery
        sampleState).toasts = [teachErrorToast] ∧
     (handleTeachSkill (some uAlice) InsertResult.err RemoveResult.ok wPottery
        sampleState).state.waitingSkills = sampleState.waitingSkills) :=
  ⟨by decide,
   teach_insert_fail_aborts uAlice sItem RemoveResult.ok wPottery sampleState
     (by decide)⟩

/-- Claim C3 counterexample: a concrete unauthenticated quick-add
submit and a concrete unauthenticated teach-offer each issue no remote
call but also fire NO toast at all, refuting the claim that every
unauthenticated mutating attempt is surfaced immediately as a blocking
toast notification. -/
theorem unauth_quickadd_and_teach_fire_no_toast :
    (handleAddToWaitingList none (AddResult.ok true) (FetchResult.ok [])
        sampleState).toasts = [] ∧
    (handleTeachSkill none InsertResult.ok RemoveResult.ok wPottery
        sampleState).toasts = [] :=
  ⟨rfl, rfl⟩

/-- Claim C3 as amended: every mutating action attempted while no user
is signed in issues no remote call; the full-form submit surfaces a
blocking error toast, while quick-add and teach-offer return silently
with no notification and unchanged state. -/
theorem unauth_mutations_no_remote_call (insertRes : InsertResult)
    (removeRes : RemoveResult) (addRes : AddResult) (fetchRes : FetchResult)
    (w : WaitingListEntry) (s : ComponentState) :
    handleTeachSkill none insertRes removeRes w s = ⟨s, [], []⟩ ∧
    handleAddToWaitingList none addRes fetchRes s = ⟨s, [], []⟩ ∧
    handleAddSkill none addRes fetchRes s = ⟨s, [signInErrorToast], []⟩ :=
  ⟨rfl, rfl, rfl⟩

/-- Claim C6: a full-form submission by a signed-in user whose trimmed
skill name is empty or whose category is unselected issues no remote
call and fires only the validation toast, leaving the state unchanged. -/
theorem fullform_missing_fields_blocks (u : User) (addRes : AddResult)
    (fetchRes : FetchResult) (s : ComponentState)
    (h : strTrim s.skillName = "" ∨ s.category = "") :
    handleAddSkill (some u) addRes fetchRes s = ⟨s, [requiredFieldsToast], []⟩ := by
  simp only [handleAddSkill]
  rw [if_pos h]

/-- Witness for C6 at a concrete state with empty form fields. -/
theorem fullform_missing_fields_blocks_witness :
    (strTrim blankFormState.skillName = "" ∨ blankFormState.category = "") ∧
    handleAddSkill (some uAlice) (AddResult.ok true) (FetchResult.ok [])
        blankFormState = ⟨blankFormState, [requiredFieldsToast], []⟩ :=
  ⟨by decide,
   fullform_missing_fields_blocks uAlice (AddResult.ok true) (FetchResult.ok [])
     blankFormState (by decide)⟩

/-- Claim C7: the waiting-list load sets the loading flag before the
fetch is awaited; on a rejected fetch the prior cache is left intact
and the error toast is surfaced; on success the cache is replaced
wholesale by the fetched sequence; in both outcomes the loading flag
ends false. -/
theorem fetch_load_behavior (s : ComponentState)
    (entries : List WaitingListEntry) :
    (fetchWaitingSkills_start s).isLoading = true ∧
    fetchWaitingSkills (FetchResult.ok entries) s =
      ⟨{ s with waitingSkills := entries, isLoading := false }, [],
        [RemoteCall.fetchWaitingListEntries]⟩ ∧
    fetchWaitingSkills FetchResult.err s =
      ⟨{ s with isLoading := false }, [fetchErrorToast],
        [RemoteCall.fetchWaitingListEntries]⟩ :=
  ⟨rfl, rfl, rfl⟩

/-- Claim C8: when the remote add call returns success, the quick-add
and full-form handlers each issue a full re-fetch of the waiting list
after the add call, reset the form fields of their entry point
(newSkill for quick-add; skillName, category and description for the
full form), and fire the success toast. -/
theorem add_success_refetch_reset_toast (u : User) (fetchRes : FetchResult)
    (s : ComponentState) (h1 : ¬ strTrim s.newSkill = "")
    (h2 : ¬ (strTrim s.skillName = "" ∨ s.category = "")) :
    (handleAddToWaitingList (some u) (AddResult.ok true) fetchRes s).calls =
      [RemoteCall.addToWaitingList (u.email.getD "") (strTrim s.newSkill) none u.id,
       RemoteCall.fetchWaitingListEntries] ∧
    (handleAddToWaitingList (some u) (AddResult.ok true) fetchRes s).state.newSkill =
      "" ∧
    addSuccessToast ∈
      (handleAddToWaitingList (some u) (AddResult.ok true) fetchRes s).toasts ∧
    (handleAddSkill (some u) (AddResult.ok true) fetchRes s).calls =
      [RemoteCall.addToWaitingList (u.email.getD "") (strTrim s.skillName)
        (some s.category) u.id,
       RemoteCall.fetchWaitingListEntries] ∧
    (handleAddSkill (some u) (AddResult.ok true) fetchRes s).state.skillName = "" ∧
    (handleAddSkill (some u) (AddResult.ok true) fetchRes s).state.category = "" ∧
    (handleAddSkill (some u) (AddResult.ok true) fetchRes s).state.description = "" ∧
    addSuccessToast ∈
      (handleAddSkill (some u) (AddResult.ok true) fetchRes s).toasts := by
  cases fetchRes <;>
    simp [handleAddToWaitingList, handleAddSkill, fetchWaitingSkills,
      fetchWaitingSkills_start, fetchWaitingSkills_finish, h1, h2]

/-- Witness for C8 at a concrete state with filled forms and a
successful add followed by a successful re-fetch. -/
theorem add_success_refetch_reset_toast_witness :
    (¬ strTrim sampleState.newSkill = "") ∧
    (¬ (strTrim sampleState.skillName = "" ∨ sampleState.category = "")) ∧
    ((handleAddToWaitingList (some uAlice) (AddResult.ok true) (FetchResult.ok [])
        sampleState).calls =
      [RemoteCall.addToWaitingList (uAlice.email.getD "")
        (strTrim sampleState.newSkill) none uAlice.id,
       RemoteCall.fetchWaitingListEntries] ∧
     (handleAddToWaitingList (some uAlice) (AddResult.ok true) (FetchResult.ok [])
        sampleState).state.newSkill = "" ∧
     addSuccessToast ∈
       (handleAddToWaitingList (some uAlice) (AddResult.ok true) (FetchResult.ok [])
         sampleState).toasts ∧
     (handleAddSkill (some uAlice) (AddResult.ok true) (FetchResult.ok [])
        sampleState).calls =
      [RemoteCall.addToWaitingList (uAlice.email.getD "")
        (strTrim sampleState.skillName) (some sampleState.category) uAlice.id,
       RemoteCall.fetchWaitingListEntries] ∧
     (handleAddSkill (some uAlice) (AddResult.ok true) (FetchResult.ok [])
        sampleState).state.skillName = "" ∧
     (handleAddSkill (some uAlice) (AddResult.ok true) (FetchResult.ok [])
        sampleState).state.category = "" ∧
     (handleAddSkill (some uAlice) (AddResult.ok true) (FetchResult.ok [])
        sampleState).state.description = "" ∧
     addSuccessToast ∈
       (handleAddSkill (some uAlice) (AddResult.ok true) (FetchResult.ok [])
         sampleState).toasts) :=
  ⟨by decide, by decide,
   add_success_refetch_reset_toast uAlice (FetchResult.ok []) sampleState
     (by decide) (by decide)⟩

/-- Claim C9: when the remote add call resolves with success set to
false, each add handler is a silent no-op: the only issued call is the
add itself (no re-fetch), no toast of any kind fires, and the state is
unchanged except that the loading flag ends false. -/
theorem add_nonsuccess_silent (u : User) (fetchRes : FetchResult)
    (s : ComponentState) (h1 : ¬ strTrim s.newSkill = "")
    (h2 : ¬ (strTrim s.skillName = "" ∨ s.category = "")) :
    handleAddToWaitingList (some u) (AddResult.ok false) fetchRes s =
      ⟨{ s with isLoading := false }, [],
        [RemoteCall.addToWaitingList (u.email.getD "") (strTrim s.newSkill)
          none u.id]⟩ ∧
    handleAddSkill (some u) (AddResult.ok false) fetchRes s =
      ⟨{ s with isLoading := false }, [],
        [RemoteCall.addToWaitingList (u.email.getD "") (strTrim s.skillName)
          (some s.category) u.id]⟩ := by
  simp [handleAddToWaitingList, handleAddSkill, h1, h2]

/-- Witness for C9 at a concrete state with filled forms. -/
theorem add_nonsuccess_silent_witness :
    (¬ strTrim sampleState.newSkill = "") ∧
    (¬ (strTrim sampleState.skillName = "" ∨ sampleState.category = "")) ∧
    (handleAddToWaitingList (some uAlice) (AddResult.ok false) (FetchResult.ok [])
        sampleState =
      ⟨{ sampleState with isLoading := false }, [],
        [RemoteCall.addToWaitingList (uAlice.email.getD "")
          (strTrim sampleState.newSkill) none uAlice.id]⟩ ∧
     handleAddSkill (some uAlice) (AddResult.ok false) (FetchResult.ok [])
        sampleState =
      ⟨{ sampleState with isLoading := false }, [],
        [RemoteCall.addToWaitingList (uAlice.email.getD "")
          (strTrim sampleState.skillName) (some sampleState.category)
          uAlice.id]⟩) :=
  ⟨by decide, by decide,
   add_nonsuccess_silent uAlice (FetchResult.ok []) sampleState
     (by decide) (by decide)⟩

/-- Claim C10: every operation that sets the loading flag clears it on
termination for every oracle outcome: the waiting-list load always ends
with the flag false, as does a teach-offer by a signed-in user, a
quick-add whose guards pass, and a full-form submit whose validation
passes. -/
theorem loading_flag_cleared (u : User) (insertRes : InsertResult)
    (removeRes : RemoveResult) (addRes : AddResult) (fetchRes : FetchResult)
    (w : WaitingListEntry) (s : ComponentState) :
    (fetchWaitingSkills fetchRes s).state.isLoading = false ∧
    (handleTeachSkill (some u) insertRes removeRes w s).state.isLoading = false ∧
    (¬ strTrim s.newSkill = "" →
      (handleAddToWaitingList (some u) addRes fetchRes s).state.isLoading = false) ∧
    (¬ (strTrim s.skillName = "" ∨ s.category = "") →
      (handleAddSkill (some u) addRes fetchRes s).state.isLoading = false) := by
  refine ⟨?_, ?_, ?_, ?_⟩
  · cases fetchRes <;> rfl
  · cases hf : s.availableSkills.find? (matchesSkill w.desired_skill) with
    | none => cases removeRes <;> simp [handleTeachSkill, hf]
    | some item =>
      cases insertRes <;> cases removeRes <;> simp [handleTeachSkill, hf]
  · intro h1
    cases addRes with
    | err => simp [handleAddToWaitingList, h1]
    | ok success =>
      cases success <;> cases fetchRes <;>
        simp [handleAddToWaitingList, fetchWaitingSkills,
          fetchWaitingSkills_start, fetchWaitingSkills_finish, h1]
  · intro h2
    cases addRes with
    | err => simp [handleAddSkill, h2]
    | ok success =>
      cases success <;> cases fetchRes <;>
        simp [handleAddSkill, fetchWaitingSkills, fetchWaitingSkills_start,
          fetchWaitingSkills_finish, h2]

/-- Witness for C10 at a concrete state with filled forms, applying the
theorem and discharging both guard hypotheses. -/
theorem loading_flag_cleared_witness :
    (fetchWaitingSkills FetchResult.err sampleState).state.isLoading = false ∧
    (handleTeachSkill (some uAlice) InsertResult.ok RemoveResult.ok wPottery
      sampleState).state.isLoading = false ∧
    (handleAddToWaitingList (some uAlice) (AddResult.ok true) FetchResult.err
      sampleState).state.isLoading = false ∧
    (handleAddSkill (some uAlice) (AddResult.ok true) FetchResult.err
      sampleState).state.isLoading = false :=
  ⟨(loading_flag_cleared uAlice InsertResult.ok RemoveResult.ok
      (AddResult.ok true) FetchResult.err wPottery sampleState).1,
   (loading_flag_cleared uAlice InsertResult.ok RemoveResult.ok
      (AddResult.ok true) FetchResult.err wPottery sampleState).2.1,
   (loading_flag_cleared uAlice InsertResult.ok RemoveResult.ok
      (AddResult.ok true) FetchResult.err wPottery sampleState).2.2.1 (by decide),
   (loading_flag_cleared uAlice InsertResult.ok RemoveResult.ok
      (AddResult.ok true) FetchResult.err wPottery sampleState).2.2.2 (by decide)⟩
